import Mathlib

/-!
Verification of the remote-HIP client/worker protocol code
(hip_remote_protocol.h, hip_client.c, hip_api_memory.c, hip_api_device.c,
hip_api_stream.c, hip_api_module.c, hip_worker_main.c).

Machine integers are modelled as Nat with explicit reduction modulo the
field width where the C code can overflow.  Socket I/O is modelled by
explicit byte streams (List Nat) and by oracle records describing the
outcome of each transport step.
-/

namespace HipRemote

/-! ### Wire protocol constants (hip_remote_protocol.h) -/

def HIP_REMOTE_MAGIC : Nat := 0x48495052

def HIP_REMOTE_VERSION : Nat := 0x0100

def HIP_REMOTE_MAX_PAYLOAD_SIZE : Nat := 64 * 1024 * 1024

def HIP_REMOTE_FLAG_RESPONSE : Nat := 1

def HIP_REMOTE_FLAG_HAS_INLINE_DATA : Nat := 4

/-! HIP error codes used by the client and worker (hip_remote_client.h). -/

def hipSuccess : Int := 0

def hipErrorInvalidValue : Int := 1

def hipErrorOutOfMemory : Int := 2

def hipErrorNotInitialized : Int := 3

def hipErrorInvalidHandle : Int := 400

def hipErrorNotSupported : Int := 801

/-! Opcodes referenced by the claims. -/

def HIP_OP_INIT : Nat := 0x0001

def HIP_OP_SHUTDOWN : Nat := 0x0002

def HIP_OP_MALLOC : Nat := 0x0200

def HIP_OP_MALLOC_HOST : Nat := 0x0202

def HIP_OP_MEMCPY : Nat := 0x0210

def HIP_OP_STREAM_CREATE : Nat := 0x0300

def HIP_OP_GET_DEVICE_COUNT : Nat := 0x0100

def HIP_OP_LAUNCH_KERNEL : Nat := 0x0510

def HIP_OP_MODULE_LOAD_DATA : Nat := 0x0500

/-! ### Protocol header (HipRemoteHeader, 20 bytes) -/

structure HipRemoteHeader where
  magic : Nat
  version : Nat
  op_code : Nat
  request_id : Nat
  payload_length : Nat
  flags : Nat
  deriving Repr, DecidableEq

/-- Embedding of hip_remote_init_header: fills magic, version, opcode
(cast to uint16), request id, payload length, and clears the flags. -/
def hip_remote_init_header (op_code request_id payload_length : Nat) :
    HipRemoteHeader :=
  { magic := HIP_REMOTE_MAGIC
    version := HIP_REMOTE_VERSION
    op_code := op_code % 2 ^ 16
    request_id := request_id % 2 ^ 32
    payload_length := payload_length % 2 ^ 32
    flags := 0 }

/-- Embedding of hip_remote_validate_header: 0 on success, -1 for bad
magic, -2 for a major-version mismatch (compares version >> 8), -3 for a
payload length above HIP_REMOTE_MAX_PAYLOAD_SIZE. -/
def hip_remote_validate_header (h : HipRemoteHeader) : Int :=
  if h.magic ≠ HIP_REMOTE_MAGIC then -1
  else if h.version / 256 ≠ HIP_REMOTE_VERSION / 256 then -2
  else if h.payload_length > HIP_REMOTE_MAX_PAYLOAD_SIZE then -3
  else 0

/-- Claim C1: hip_remote_validate_header accepts a header iff its magic,
major version and payload bound are all in order; every header built by
hip_remote_init_header with payload at most 64 MiB validates, while a
mutated magic yields -1 (bad magic), a changed major version yields -2,
and an oversized payload length yields -3, three distinct results. -/
theorem validate_header_spec (op rid len : Nat)
    (hlen : len ≤ HIP_REMOTE_MAX_PAYLOAD_SIZE) :
    (∀ h : HipRemoteHeader, hip_remote_validate_header h = 0 ↔
      (h.magic = HIP_REMOTE_MAGIC ∧
       h.version / 256 = HIP_REMOTE_VERSION / 256 ∧
       h.payload_length ≤ HIP_REMOTE_MAX_PAYLOAD_SIZE)) ∧
    hip_remote_validate_header (hip_remote_init_header op rid len) = 0 ∧
    (∀ m, m ≠ HIP_REMOTE_MAGIC →
      hip_remote_validate_header
        { hip_remote_init_header op rid len with magic := m } = -1) ∧
    (∀ v, v / 256 ≠ HIP_REMOTE_VERSION / 256 →
      hip_remote_validate_header
        { hip_remote_init_header op rid len with version := v } = -2) ∧
    (∀ l, l > HIP_REMOTE_MAX_PAYLOAD_SIZE →
      hip_remote_validate_header
        { hip_remote_init_header op rid len with payload_length := l } = -3) := by
  have hmod : len % 2 ^ 32 = len := by
    apply Nat.mod_eq_of_lt
    have : HIP_REMOTE_MAX_PAYLOAD_SIZE < 2 ^ 32 := by decide
    omega
  refine ⟨?_, ?_, ?_, ?_, ?_⟩
  · intro h
    unfold hip_remote_validate_header
    constructor
    · intro h0
      by_cases h1 : h.magic = HIP_REMOTE_MAGIC
      · by_cases h2 : h.version / 256 = HIP_REMOTE_VERSION / 256
        · by_cases h3 : h.payload_length > HIP_REMOTE_MAX_PAYLOAD_SIZE
          · simp [h1, h2, h3] at h0
          · exact ⟨h1, h2, by omega⟩
        · simp [h1, h2] at h0
      · simp [h1] at h0
    · rintro ⟨h1, h2, h3⟩
      simp [h1, h2]
      omega
  · unfold hip_remote_validate_header hip_remote_init_header
    simp
    omega
  · intro m hm
    unfold hip_remote_validate_header hip_remote_init_header
    simp [hm]
  · intro v hv
    unfold hip_remote_validate_header hip_remote_init_header
    simp [hv]
  · intro l hl
    unfold hip_remote_validate_header hip_remote_init_header
    simp [hl]

/-- Witness for validate_header_spec at opcode 3, request id 7,
payload length 12. -/
theorem validate_header_spec_witness :
    hip_remote_validate_header (hip_remote_init_header 3 7 12) = 0 ∧
    hip_remote_validate_header
      { hip_remote_init_header 3 7 12 with magic := 0 } = -1 ∧
    hip_remote_validate_header
      { hip_remote_init_header 3 7 12 with version := 0x0200 } = -2 ∧
    hip_remote_validate_header
      { hip_remote_init_header 3 7 12 with
          payload_length := HIP_REMOTE_MAX_PAYLOAD_SIZE + 1 } = -3 := by
  have h := validate_header_spec 3 7 12 (by decide)
  exact ⟨h.2.1, h.2.2.1 0 (by decide), h.2.2.2.1 0x0200 (by decide),
    h.2.2.2.2 (HIP_REMOTE_MAX_PAYLOAD_SIZE + 1) (by decide)⟩

/-! ### Response-payload reception (hip_client.c)

The bytes still to be read from the socket are modelled as a List Nat.
recv_all of n bytes succeeds exactly when the stream holds at least n
bytes, consuming them from the front. -/

/-- Embedding of recv_all over a byte stream: returns the n bytes read
and the rest of the stream, or none when the peer cannot supply them. -/
def recv_all (n : Nat) (stream : List Nat) : Option (List Nat × List Nat) :=
  if n ≤ stream.length then some (stream.take n, stream.drop n) else none

/-- Embedding of the drain loop of hip_remote_request: reads and discards
extra bytes in chunks of at most 256 until none remain. -/
def drain_extra (extra : Nat) (stream : List Nat) : Option (List Nat) :=
  if _h : extra = 0 then some stream
  else
    let chunk := min extra 256
    match recv_all chunk stream with
    | none => none
    | some (_, rest) => drain_extra (extra - chunk) rest
termination_by extra
decreasing_by
  have : 0 < min extra 256 := by omega
  omega

theorem drain_extra_spec (extra : Nat) :
    ∀ stream : List Nat, extra ≤ stream.length →
      drain_extra extra stream = some (stream.drop extra) := by
  induction extra using Nat.strong_induction_on with
  | _ extra ih =>
    intro stream hlen
    rw [drain_extra]
    by_cases h0 : extra = 0
    · simp [h0]
    · have hchunk : min extra 256 ≤ stream.length := by omega
      simp only [h0, dite_false, recv_all, if_pos hchunk]
      have hrec := ih (extra - min extra 256) (by omega)
        (stream.drop (min extra 256)) (by simp; omega)
      simp only [hrec, List.drop_drop]
      have heq : min extra 256 + (extra - min extra 256) = extra := by omega
      rw [heq]

/-- Receive phase of hip_remote_request (after the response header has
been validated): when a response buffer is supplied and the declared
payload is nonzero, read min(payload_length, response_size) bytes into
the buffer, then drain payload_length - response_size extra bytes.
Returns the buffer contents and the remaining stream. -/
def hip_remote_request_recv (payload_length response_size : Nat)
    (stream : List Nat) : Option (List Nat × List Nat) :=
  if response_size > 0 ∧ payload_length > 0 then
    match recv_all (min payload_length response_size) stream with
    | none => none
    | some (buf, rest) =>
      if payload_length > response_size then
        match drain_extra (payload_length - response_size) rest with
        | none => none
        | some rest2 => some (buf, rest2)
      else some (buf, rest)
  else some ([], stream)

/-- Receive phase of hip_remote_request_with_data: identical to the
plain path except that no drain loop follows the buffered read. -/
def hip_remote_request_with_data_recv (payload_length response_size : Nat)
    (stream : List Nat) : Option (List Nat × List Nat) :=
  if response_size > 0 ∧ payload_length > 0 then
    recv_all (min payload_length response_size) stream
  else some ([], stream)

/-- Counterexample to claim C2: hip_remote_request_with_data does not
drain.  With a declared payload of 8 bytes and a 4-byte caller buffer,
the with-data primitive consumes only 4 of the 8 payload bytes, leaving
the stream mispositioned (4 stale bytes precede the next frame header). -/
theorem request_with_data_no_drain_counterexample :
    hip_remote_request_with_data_recv 8 4 [10, 11, 12, 13, 14, 15, 16, 17] =
      some ([10, 11, 12, 13], [14, 15, 16, 17]) ∧
    ([14, 15, 16, 17] : List Nat) ≠ [] := by
  constructor
  · rfl
  · decide

/-- Claim C2 as amended: the plain hip_remote_request primitive does read
exactly the declared payload length, copying min(payload, buffer) bytes
into the caller buffer and draining the excess, so its stream ends at the
next frame; hip_remote_request_with_data instead reads only
min(payload, buffer) bytes and leaves any excess unread on the stream. -/
theorem request_drain_amended (payload_length response_size : Nat)
    (stream : List Nat) (hr : response_size > 0) (hp : payload_length > 0)
    (hs : payload_length ≤ stream.length) :
    hip_remote_request_recv payload_length response_size stream =
      some (stream.take (min payload_length response_size),
            stream.drop payload_length) ∧
    hip_remote_request_with_data_recv payload_length response_size stream =
      some (stream.take (min payload_length response_size),
            stream.drop (min payload_length response_size)) := by
  have hmin : min payload_length response_size ≤ stream.length := by omega
  constructor
  · unfold hip_remote_request_recv
    simp only [if_pos (And.intro hr hp), recv_all, if_pos hmin]
    by_cases hgt : payload_length > response_size
    · have hdr := drain_extra_spec (payload_length - response_size)
        (stream.drop (min payload_length response_size)) (by simp; omega)
      simp only [if_pos hgt, hdr, List.drop_drop]
      have heq : min payload_length response_size +
          (payload_length - response_size) = payload_length := by omega
      rw [heq]
    · have : min payload_length response_size = payload_length := by omega
      simp [hgt, this]
  · unfold hip_remote_request_with_data_recv
    simp only [if_pos (And.intro hr hp), recv_all, if_pos hmin]

/-- Witness for request_drain_amended: payload 8, buffer 4, an 8-byte
stream; the plain primitive consumes all 8 bytes, the with-data
primitive only 4. -/
theorem request_drain_amended_witness :
    hip_remote_request_recv 8 4 [10, 11, 12, 13, 14, 15, 16, 17] =
      some ([10, 11, 12, 13], []) ∧
    hip_remote_request_with_data_recv 8 4 [10, 11, 12, 13, 14, 15, 16, 17] =
      some ([10, 11, 12, 13], [14, 15, 16, 17]) := by
  have h := request_drain_amended 8 4 [10, 11, 12, 13, 14, 15, 16, 17]
    (by decide) (by decide) (by decide)
  exact ⟨by rw [h.1]; rfl, by rw [h.2]; rfl⟩

/-! ### Lazy connect and INIT handshake (hip_client.c,
connect_to_worker_locked / hip_remote_ensure_connected) -/

/-- Mutable client connection state relevant to the connect path. -/
structure ClientConn where
  connected : Bool
  next_request_id : Nat
  deriving Repr, DecidableEq

/-- Transport oracle for one connect attempt: whether resolve + socket +
connect succeed, whether sending the INIT frame succeeds, the response
header received (none = receive failure), and the embedded INIT error
code received (none = receive failure of the response body). -/
structure ConnectEnv where
  connect_ok : Bool
  send_ok : Bool
  recv_header : Option HipRemoteHeader
  recv_body : Option Int

/-- Result of a connect attempt: the returned int, the new state, and
the INIT frame header that was handed to send_all (none when the attempt
failed before sending). -/
structure ConnectResult where
  ret : Int
  state : ClientConn
  sent : Option HipRemoteHeader
  deriving Repr

/-- Embedding of connect_to_worker_locked: immediate success when
already connected; otherwise resolve/socket/connect, mark connected,
send an INIT frame with empty payload (consuming one request id),
receive and validate the response header, and when the response carries
a payload check its embedded error code.  Every failure after the
connect closes the socket and clears the connected flag
(mark_disconnected_locked). -/
def connect_to_worker_locked (st : ClientConn) (env : ConnectEnv) :
    ConnectResult :=
  if st.connected then ⟨0, st, none⟩
  else if !env.connect_ok then ⟨-1, { st with connected := false }, none⟩
  else
    let initHeader := hip_remote_init_header HIP_OP_INIT st.next_request_id 0
    let st2 : ClientConn := { connected := true,
                              next_request_id := st.next_request_id + 1 }
    if !env.send_ok then ⟨-1, { st2 with connected := false }, some initHeader⟩
    else
      match env.recv_header with
      | none => ⟨-1, { st2 with connected := false }, some initHeader⟩
      | some rh =>
        if hip_remote_validate_header rh ≠ 0 then
          ⟨-1, { st2 with connected := false }, some initHeader⟩
        else if rh.payload_length > 0 then
          match env.recv_body with
          | none => ⟨-1, { st2 with connected := false }, some initHeader⟩
          | some code =>
            if code ≠ hipSuccess then
              ⟨-1, { st2 with connected := false }, some initHeader⟩
            else ⟨0, st2, some initHeader⟩
        else ⟨0, st2, some initHeader⟩

/-- Embedding of hip_remote_ensure_connected: under the connection lock
it simply runs connect_to_worker_locked. -/
def hip_remote_ensure_connected (st : ClientConn) (env : ConnectEnv) :
    ConnectResult :=
  connect_to_worker_locked st env

/-- Claim C3: starting from a disconnected state, ensure_connected
returns success iff the connect succeeded, the INIT frame was sent, a
valid response header arrived, and any embedded INIT error code was
success; whatever frame it sends is the INIT opcode with empty payload;
on success the connected flag is set, and on every failure the
connected flag is cleared. -/
theorem ensure_connected_spec (st : ClientConn) (env : ConnectEnv)
    (hd : st.connected = false) :
    ((hip_remote_ensure_connected st env).ret = 0 ↔
      (env.connect_ok = true ∧ env.send_ok = true ∧
       ∃ rh, env.recv_header = some rh ∧ hip_remote_validate_header rh = 0 ∧
         (rh.payload_length > 0 →
           ∃ code, env.recv_body = some code ∧ code = hipSuccess))) ∧
    (∀ fr, (hip_remote_ensure_connected st env).sent = some fr →
      fr = hip_remote_init_header HIP_OP_INIT st.next_request_id 0 ∧
      fr.payload_length = 0) ∧
    ((hip_remote_ensure_connected st env).ret = 0 →
      (hip_remote_ensure_connected st env).state.connected = true) ∧
    ((hip_remote_ensure_connected st env).ret ≠ 0 →
      (hip_remote_ensure_connected st env).state.connected = false) := by
  have hpz : ∀ n : Nat,
      (hip_remote_init_header HIP_OP_INIT n 0).payload_length = 0 := by
    intro n
    simp [hip_remote_init_header]
  unfold hip_remote_ensure_connected connect_to_worker_locked
  rcases env with ⟨cok, sok, rh, rb⟩
  simp only [hd, Bool.false_eq_true, if_false]
  cases cok with
  | false => simp
  | true =>
    cases sok with
    | false => simp [hpz]
    | true =>
      cases rh with
      | none => simp [hpz]
      | some h =>
        by_cases hv : hip_remote_validate_header h = 0
        · by_cases hp : h.payload_length > 0
          · cases rb with
            | none =>
              simp [hv, hp, hpz]
              omega
            | some code =>
              by_cases hc : code = hipSuccess
              · simp [hv, hp, hc, hpz]
              · simp [hv, hp, hc, hpz]
                omega
          · simp [hv, hp, hpz]
        · simp [hv, hpz]

/-- Witness for ensure_connected_spec: a disconnected client, a
cooperative transport whose INIT response carries a success code;
the handshake succeeds and sets the connected flag. -/
theorem ensure_connected_spec_witness :
    (hip_remote_ensure_connected ⟨false, 1⟩
      ⟨true, true, some (hip_remote_init_header HIP_OP_INIT 1 4), some 0⟩).ret
        = 0 ∧
    (hip_remote_ensure_connected ⟨false, 1⟩
      ⟨true, true, some (hip_remote_init_header HIP_OP_INIT 1 4),
        some 0⟩).state.connected = true := by
  have h := ensure_connected_spec ⟨false, 1⟩
    ⟨true, true, some (hip_remote_init_header HIP_OP_INIT 1 4), some 0⟩ rfl
  have hret : (hip_remote_ensure_connected ⟨false, 1⟩
      ⟨true, true, some (hip_remote_init_header HIP_OP_INIT 1 4),
        some 0⟩).ret = 0 := by
    apply h.1.mpr
    exact ⟨rfl, rfl, hip_remote_init_header HIP_OP_INIT 1 4, rfl, by decide,
      fun _ => ⟨0, rfl, rfl⟩⟩
  exact ⟨hret, h.2.2.1 hret⟩

/-! ### Client API surface (hip_api_memory.c, hip_api_device.c,
hip_api_stream.c, hip_api_module.c)

Each entry point is modelled as a pure function of its arguments and of
an oracle giving the outcome of the remote round trip.  Null pointers
are modelled by the handle value 0 (for data pointers) or by an explicit
Boolean for caller-supplied output pointers.  The record below captures
the returned hipError_t, the final contents of the caller's output
parameter (none = the entry point never wrote it), and the opcodes of
the requests actually sent on the wire. -/

structure ApiCall where
  result : Int
  output : Option Int
  wire : List Nat
  deriving Repr, DecidableEq

/-- Embedding of hipMalloc: null output pointer is rejected locally;
size 0 stores NULL and succeeds with no traffic; otherwise one MALLOC
round trip, storing the worker handle on success and NULL on failure.
The oracle remote = (error code, device_ptr of the response). -/
def hipMalloc (ptr_is_null : Bool) (size : Nat) (remote : Int × Int) :
    ApiCall :=
  if ptr_is_null then ⟨hipErrorInvalidValue, none, []⟩
  else if size = 0 then ⟨hipSuccess, some 0, []⟩
  else if remote.1 = hipSuccess then ⟨remote.1, some remote.2, [HIP_OP_MALLOC]⟩
  else ⟨remote.1, some 0, [HIP_OP_MALLOC]⟩

/-- Embedding of hipMallocHost: null output pointer rejected; size 0
short-circuits; otherwise the buffer is allocated locally (local_alloc,
0 = malloc failed) and stored through the output pointer, a MALLOC_HOST
registration round trip is issued, and hipSuccess is returned no matter
what the registration returned. -/
def hipMallocHost (ptr_is_null : Bool) (size : Nat) (local_alloc : Int)
    (_remote : Int × Int) : ApiCall :=
  if ptr_is_null then ⟨hipErrorInvalidValue, none, []⟩
  else if size = 0 then ⟨hipSuccess, some 0, []⟩
  else if local_alloc = 0 then ⟨hipErrorOutOfMemory, some 0, []⟩
  else ⟨hipSuccess, some local_alloc, [HIP_OP_MALLOC_HOST]⟩

/-- Embedding of hipGetDeviceCount: null output pointer rejected; one
GET_DEVICE_COUNT round trip; the output is written only on success.
The oracle remote = (error code, count of the response). -/
def hipGetDeviceCount (count_is_null : Bool) (remote : Int × Int) :
    ApiCall :=
  if count_is_null then ⟨hipErrorInvalidValue, none, []⟩
  else if remote.1 = hipSuccess then
    ⟨remote.1, some remote.2, [HIP_OP_GET_DEVICE_COUNT]⟩
  else ⟨remote.1, none, [HIP_OP_GET_DEVICE_COUNT]⟩

/-- Embedding of hipStreamCreate: null output pointer rejected; one
STREAM_CREATE round trip; the stream handle is stored on success and
NULL is stored on failure. -/
def hipStreamCreate (stream_is_null : Bool) (remote : Int × Int) :
    ApiCall :=
  if stream_is_null then ⟨hipErrorInvalidValue, none, []⟩
  else if remote.1 = hipSuccess then
    ⟨remote.1, some remote.2, [HIP_OP_STREAM_CREATE]⟩
  else ⟨remote.1, some 0, [HIP_OP_STREAM_CREATE]⟩

/-- Outcome of hipMemcpy: returned error, opcodes sent, and whether a
local memmove was performed instead of network traffic. -/
structure MemcpyCall where
  result : Int
  wire : List Nat
  local_copy : Bool
  deriving Repr, DecidableEq

/-- Embedding of hipMemcpy: size 0 succeeds before any other check with
no traffic; null dst or src rejected; kind 1 (H2D) uses the with-data
primitive, kind 2 (D2H) the receive-data primitive, kinds 3 and 4 the
plain primitive, kind 0 (H2H) a local memmove, any other kind is
rejected locally.  The oracle remote is the error of the round trip. -/
def hipMemcpy (dst src : Nat) (size : Nat) (kind : Nat) (remote : Int) :
    MemcpyCall :=
  if size = 0 then ⟨hipSuccess, [], false⟩
  else if dst = 0 ∨ src = 0 then ⟨hipErrorInvalidValue, [], false⟩
  else if kind = 1 then ⟨remote, [HIP_OP_MEMCPY], false⟩
  else if kind = 2 then ⟨remote, [HIP_OP_MEMCPY], false⟩
  else if kind = 3 then ⟨remote, [HIP_OP_MEMCPY], false⟩
  else if kind = 0 then ⟨hipSuccess, [], true⟩
  else if kind = 4 then ⟨remote, [HIP_OP_MEMCPY], false⟩
  else ⟨hipErrorInvalidValue, [], false⟩

/-- Claim C4: zero-length memory operations short-circuit locally: for a
non-null output pointer, hipMalloc with size 0 stores NULL and succeeds
with nothing sent on the wire, and hipMemcpy with size 0 succeeds with
no network traffic for every kind and every oracle. -/
theorem zero_length_short_circuit :
    (∀ remote, hipMalloc false 0 remote =
      ⟨hipSuccess, some 0, []⟩) ∧
    (∀ dst src kind remote, hipMemcpy dst src 0 kind remote =
      ⟨hipSuccess, [], false⟩) := by
  constructor
  · intro _remote
    rfl
  · intro dst src kind _remote
    rfl

/-! ### Kernel launch entry points (hip_api_module.c) -/

/-- Embedding of the sentinel-terminated argument count fallback of
hipModuleLaunchKernel: count entries of kernelParams before the first
NULL, reading at most HIP_REMOTE_MAX_KERNEL_ARGS (64) entries. -/
def count_sentinel_args (params : List Nat) : Nat :=
  ((params.take 64).takeWhile (fun p => p ≠ 0)).length

/-- Embedding of hipModuleLaunchKernel: a null function handle is an
invalid-handle error; a non-empty extra array is rejected locally with
hipErrorNotSupported; the argument count is the cached metadata when
nonzero, otherwise sentinel counting over kernelParams (none = caller
passed NULL); a positive count with NULL kernelParams is invalid; then
the launch request is built (malloc_ok = local allocation of the
request buffer) and one LAUNCH_KERNEL round trip is made. -/
def hipModuleLaunchKernel (f : Nat) (extra_nonempty : Bool)
    (cached_num_args : Nat) (kernelParams : Option (List Nat))
    (malloc_ok : Bool) (remote : Int) : Int × List Nat :=
  if f = 0 then (hipErrorInvalidHandle, [])
  else if extra_nonempty then (hipErrorNotSupported, [])
  else
    match kernelParams with
    | some params =>
      let _num_args := if cached_num_args = 0 then count_sentinel_args params
                       else cached_num_args
      if malloc_ok then (remote, [HIP_OP_LAUNCH_KERNEL])
      else (hipErrorOutOfMemory, [])
    | none =>
      if cached_num_args > 0 then (hipErrorInvalidValue, [])
      else if malloc_ok then (remote, [HIP_OP_LAUNCH_KERNEL])
      else (hipErrorOutOfMemory, [])

/-- Embedding of hipLaunchKernel: launches identified by a host function
address are unconditionally rejected with hipErrorNotSupported and no
request is sent. -/
def hipLaunchKernel (_function_address : Nat) : Int × List Nat :=
  (hipErrorNotSupported, [])

/-- Claim C5: unsupported launch shapes fail fast with no network
traffic: hipLaunchKernel always returns hipErrorNotSupported without
sending, and hipModuleLaunchKernel with a valid function handle and a
non-empty extra array returns hipErrorNotSupported without sending. -/
theorem launch_not_supported_spec :
    (∀ fa, hipLaunchKernel fa = (hipErrorNotSupported, [])) ∧
    (∀ f cached params mok remote, f ≠ 0 →
      hipModuleLaunchKernel f true cached params mok remote =
        (hipErrorNotSupported, [])) := by
  constructor
  · intro fa
    rfl
  · intro f cached params mok remote hf
    unfold hipModuleLaunchKernel
    simp [hf]

/-- Witness for launch_not_supported_spec at function handle 1. -/
theorem launch_not_supported_spec_witness :
    hipLaunchKernel 42 = (hipErrorNotSupported, []) ∧
    hipModuleLaunchKernel 1 true 0 none true 0 =
      (hipErrorNotSupported, []) := by
  have h := launch_not_supported_spec
  exact ⟨h.1 42, h.2 1 0 none true 0 (by decide)⟩

/-- Counterexample to claim C9: on a failing round trip,
hipGetDeviceCount does not store any value through its output pointer
(output = none), so the caller's prior contents survive unchanged -
here a prior value 5 is still 5 after the failed call, not a defined
empty value such as 0. -/
theorem get_device_count_output_counterexample :
    (hipGetDeviceCount false (hipErrorNotInitialized, 8)).result ≠ 0 ∧
    (hipGetDeviceCount false (hipErrorNotInitialized, 8)).output = none ∧
    (hipGetDeviceCount false (hipErrorNotInitialized, 8)).output.getD 5 = 5 ∧
    (5 : Int) ≠ 0 := by
  refine ⟨by decide, rfl, rfl, by decide⟩

/-- Claim C9 as amended: on any failing operation, hipMalloc stores NULL
through its output pointer, hipStreamCreate stores NULL through its
output pointer, and hipGetDeviceCount leaves its output untouched
(holding the caller's prior value); no output is partially populated. -/
theorem failure_output_state_amended (err : Int) (herr : err ≠ hipSuccess)
    (v : Int) (size : Nat) (hsz : size ≠ 0) :
    (hipMalloc false size (err, v)).output = some 0 ∧
    (hipMalloc false size (err, v)).result = err ∧
    (hipStreamCreate false (err, v)).output = some 0 ∧
    (hipStreamCreate false (err, v)).result = err ∧
    (hipGetDeviceCount false (err, v)).output = none ∧
    (hipGetDeviceCount false (err, v)).result = err := by
  unfold hipMalloc hipStreamCreate hipGetDeviceCount
  simp [hsz, herr]

/-- Witness for failure_output_state_amended with error code 3 and
size 16. -/
theorem failure_output_state_amended_witness :
    (hipMalloc false 16 (3, 7)).output = some 0 ∧
    (hipStreamCreate false (3, 7)).output = some 0 ∧
    (hipGetDeviceCount false (3, 7)).output = none := by
  have h := failure_output_state_amended 3 (by decide) 7 16 (by decide)
  exact ⟨h.1, h.2.2.1, h.2.2.2.2.1⟩

/-- Claim C10: for a non-null output pointer and positive size,
hipMallocHost returns success whenever the local allocation succeeds,
regardless of the error the remote registration returned; the stored
value is the local allocation, never the worker handle, and exactly one
MALLOC_HOST registration request goes on the wire. -/
theorem malloc_host_local_spec (size : Nat) (hsz : size ≠ 0)
    (local_alloc : Int) (hla : local_alloc ≠ 0) (remote : Int × Int) :
    hipMallocHost false size local_alloc remote =
      ⟨hipSuccess, some local_alloc, [HIP_OP_MALLOC_HOST]⟩ := by
  unfold hipMallocHost
  simp [hsz, hla]

/-- Witness for malloc_host_local_spec: size 32, local allocation at
handle 9, remote registration failing with error 2; the call still
succeeds and stores the local allocation. -/
theorem malloc_host_local_spec_witness :
    hipMallocHost false 32 9 (2, 1234) =
      ⟨hipSuccess, some 9, [HIP_OP_MALLOC_HOST]⟩ :=
  malloc_host_local_spec 32 (by decide) 9 (by decide) (2, 1234)

/-! ### Module size sniffer (hipModuleLoadData, hip_api_module.c)

The input buffer is a List Nat of bytes; multi-byte fields are read
little-endian, as the x86 host reads them through unaligned loads. -/

/-- Byte fetch from the buffer (out-of-range reads yield 0; every
theorem below reads only in-bounds positions of well-formed buffers). -/
def readByte (data : List Nat) (i : Nat) : Nat :=
  data.getD i 0

/-- Little-endian read of k bytes starting at offset i. -/
def readLE (data : List Nat) : Nat → Nat → Nat
  | _, 0 => 0
  | i, k + 1 => readByte data i + 256 * readLE data (i + 1) k

def readU16 (data : List Nat) (i : Nat) : Nat :=
  readLE data i 2

def readU64 (data : List Nat) (i : Nat) : Nat :=
  readLE data i 8

/-- ELF magic test: 0x7f 'E' 'L' 'F' in the first four bytes. -/
def is_elf_magic (data : List Nat) : Bool :=
  readByte data 0 == 0x7f && readByte data 1 == 0x45 &&
  readByte data 2 == 0x4c && readByte data 3 == 0x46

/-- The 24 bytes of the Clang offload-bundle magic string. -/
def clang_bundle_magic : List Nat :=
  [95, 95, 67, 76, 65, 78, 71, 95, 79, 70, 70, 76, 79, 65, 68, 95,
   66, 85, 78, 68, 76, 69, 95, 95]

/-- Embedding of the bundle-entry loop of hipModuleLoadData: walk count
entries starting at byte offset ptr; each entry holds (offset, size,
triple_len) as three uint64 fields followed by triple_len string bytes;
track the 64-bit maximum of offset + size. -/
def bundle_scan (data : List Nat) : Nat → Nat → Nat → Nat
  | _, 0, max_end => max_end
  | ptr, n + 1, max_end =>
    let off := readU64 data ptr
    let sz := readU64 data (ptr + 8)
    let triple_len := readU64 data (ptr + 16)
    let e := (off + sz) % 2 ^ 64
    bundle_scan data (ptr + 24 + triple_len) n (max max_end e)

/-- Embedding of the size computation of hipModuleLoadData: an ELF
buffer yields e_shoff + e_shnum * e_shentsize (uint64 arithmetic, the
fields read from offsets 40, 60 and 58); a bundle buffer yields the
scanned maximum over at most 16 entries of the declared count (read
from offset 24, entries from offset 32); any other buffer yields the
16 MiB default; finally any value below 64 bytes or above the maximum
payload size is replaced by the 16 MiB default. -/
def module_approx_size (data : List Nat) : Nat :=
  if is_elf_magic data then
    (readU64 data 40 + readU16 data 60 * readU16 data 58) % 2 ^ 64
  else if data.take 24 = clang_bundle_magic then
    bundle_scan data 32 (min (readU64 data 24) 16) 0
  else 16 * 1024 * 1024

def module_sniff_size (data : List Nat) : Nat :=
  if module_approx_size data < 64 ∨
      module_approx_size data > HIP_REMOTE_MAX_PAYLOAD_SIZE then
    16 * 1024 * 1024
  else module_approx_size data

/-! Little-endian encoders used to build synthetic buffers, and the
round-trip lemmas relating them to the reads above. -/

/-- k bytes of n, least significant first. -/
def natLE : Nat → Nat → List Nat
  | 0, _ => []
  | k + 1, n => n % 256 :: natLE k (n / 256)

theorem natLE_length (k n : Nat) : (natLE k n).length = k := by
  induction k generalizing n with
  | zero => rfl
  | succ k ih => simp [natLE, ih]

theorem readByte_append_right (pre l : List Nat) (k : Nat) :
    readByte (pre ++ l) (pre.length + k) = readByte l k := by
  unfold readByte
  rw [List.getD_append_right _ _ _ _ (by omega)]
  congr 1
  omega

theorem readLE_append_right (k : Nat) :
    ∀ (pre l : List Nat) (i : Nat),
      readLE (pre ++ l) (pre.length + i) k = readLE l i k := by
  induction k with
  | zero => intro pre l i; rfl
  | succ k ih =>
    intro pre l i
    show readByte (pre ++ l) (pre.length + i) + 256 *
        readLE (pre ++ l) (pre.length + i + 1) k =
      readByte l i + 256 * readLE l (i + 1) k
    rw [readByte_append_right]
    have : pre.length + i + 1 = pre.length + (i + 1) := by omega
    rw [this, ih]

theorem readLE_natLE (k : Nat) :
    ∀ (n : Nat) (rest : List Nat),
      readLE (natLE k n ++ rest) 0 k = n % 256 ^ k := by
  induction k with
  | zero =>
    intro n rest
    simp [readLE, Nat.mod_one]
  | succ k ih =>
    intro n rest
    show readByte (natLE (k+1) n ++ rest) 0 + 256 *
        readLE (natLE (k+1) n ++ rest) 1 k = n % 256 ^ (k + 1)
    have h0 : readByte (natLE (k+1) n ++ rest) 0 = n % 256 := rfl
    have h1 : readLE (natLE (k+1) n ++ rest) 1 k =
        (n / 256) % 256 ^ k := by
      have hsplit : natLE (k+1) n ++ rest =
          [n % 256] ++ (natLE k (n / 256) ++ rest) := by
        simp [natLE]
      rw [hsplit]
      have hlen : (1 : Nat) = ([n % 256] : List Nat).length + 0 := rfl
      rw [hlen, readLE_append_right]
      exact ih (n / 256) rest
    rw [h0, h1, pow_succ']
    exact (Nat.mod_mul).symm

theorem readLE_encode (k : Nat) (n : Nat) (pre rest : List Nat) :
    readLE (pre ++ (natLE k n ++ rest)) pre.length k = n % 256 ^ k := by
  have h : pre.length = pre.length + 0 := rfl
  rw [h, readLE_append_right]
  exact readLE_natLE k n rest

theorem readU64_encode (pre rest : List Nat) (v : Nat) (hv : v < 2 ^ 64) :
    readU64 (pre ++ (natLE 8 v ++ rest)) pre.length = v := by
  unfold readU64
  rw [readLE_encode]
  have h : (256 : Nat) ^ 8 = 2 ^ 64 := by norm_num
  rw [h]
  exact Nat.mod_eq_of_lt hv

theorem readU16_encode (pre rest : List Nat) (v : Nat) (hv : v < 2 ^ 16) :
    readU16 (pre ++ (natLE 2 v ++ rest)) pre.length = v := by
  unfold readU16
  rw [readLE_encode]
  have h : (256 : Nat) ^ 2 = 2 ^ 16 := by norm_num
  rw [h]
  exact Nat.mod_eq_of_lt hv

/-- A synthetic 64-byte ELF header: magic, zeros, e_shoff at offset 40,
e_shentsize at offset 58, e_shnum at offset 60. -/
def encode_elf_header (shoff shentsize shnum : Nat) : List Nat :=
  [0x7f, 0x45, 0x4c, 0x46] ++ List.replicate 36 0 ++ natLE 8 shoff ++
  List.replicate 10 0 ++ natLE 2 shentsize ++ natLE 2 shnum ++
  List.replicate 2 0

/-- Counterexample to claim C6: an ELF buffer whose section-header
fields are all zero computes offset + count * size = 0, but the
transmitted size is the 16 MiB fallback, not 0 - the claimed equality
does not hold for every ELF-magic buffer. -/
theorem elf_sniff_counterexample :
    module_sniff_size ([0x7f, 0x45, 0x4c, 0x46] ++ List.replicate 60 0) =
      16 * 1024 * 1024 ∧
    (readU64 ([0x7f, 0x45, 0x4c, 0x46] ++ List.replicate 60 0) 40 +
      readU16 ([0x7f, 0x45, 0x4c, 0x46] ++ List.replicate 60 0) 60 *
      readU16 ([0x7f, 0x45, 0x4c, 0x46] ++ List.replicate 60 0) 58) = 0 ∧
    (16 * 1024 * 1024 : Nat) ≠ 0 := by
  refine ⟨by decide, by decide, by decide⟩

/-- Claim C6 as amended: for every buffer that begins with the ELF magic
and whose header fields at offsets 40 (section-header offset, u64),
58 (entry size, u16) and 60 (entry count, u16) give a value
offset + count * size within the plausible range [64, 64 MiB], the
sniffer transmits exactly offset + count * size, whatever bytes follow
the header. -/
theorem elf_sniff_amended (shoff shentsize shnum : Nat)
    (h1 : shoff < 2 ^ 64) (h2 : shentsize < 2 ^ 16) (h3 : shnum < 2 ^ 16)
    (hlo : 64 ≤ shoff + shnum * shentsize)
    (hhi : shoff + shnum * shentsize ≤ HIP_REMOTE_MAX_PAYLOAD_SIZE)
    (rest : List Nat) :
    module_sniff_size (encode_elf_header shoff shentsize shnum ++ rest) =
      shoff + shnum * shentsize := by
  have helf : is_elf_magic (encode_elf_header shoff shentsize shnum ++ rest)
      = true := rfl
  have h40 : readU64 (encode_elf_header shoff shentsize shnum ++ rest) 40
      = shoff := by
    have hd : encode_elf_header shoff shentsize shnum ++ rest =
        ([0x7f, 0x45, 0x4c, 0x46] ++ List.replicate 36 0) ++
        (natLE 8 shoff ++ (List.replicate 10 0 ++ natLE 2 shentsize ++
          natLE 2 shnum ++ List.replicate 2 0 ++ rest)) := by
      simp [encode_elf_header]
    have hl : (40 : Nat) =
        ([0x7f, 0x45, 0x4c, 0x46] ++ (List.replicate 36 (0 : Nat))).length := by
      decide
    rw [hd, hl, readU64_encode _ _ _ h1]
  have h58 : readU16 (encode_elf_header shoff shentsize shnum ++ rest) 58
      = shentsize := by
    have hd : encode_elf_header shoff shentsize shnum ++ rest =
        ([0x7f, 0x45, 0x4c, 0x46] ++ List.replicate 36 0 ++ natLE 8 shoff ++
          List.replicate 10 0) ++
        (natLE 2 shentsize ++ (natLE 2 shnum ++ List.replicate 2 0 ++ rest)) := by
      simp [encode_elf_header]
    have hl : (58 : Nat) =
        ([0x7f, 0x45, 0x4c, 0x46] ++ List.replicate 36 (0 : Nat) ++
          natLE 8 shoff ++ List.replicate 10 (0 : Nat)).length := by
      simp [natLE_length]
    rw [hd, hl, readU16_encode _ _ _ h2]
  have h60 : readU16 (encode_elf_header shoff shentsize shnum ++ rest) 60
      = shnum := by
    have hd : encode_elf_header shoff shentsize shnum ++ rest =
        ([0x7f, 0x45, 0x4c, 0x46] ++ List.replicate 36 0 ++ natLE 8 shoff ++
          List.replicate 10 0 ++ natLE 2 shentsize) ++
        (natLE 2 shnum ++ (List.replicate 2 0 ++ rest)) := by
      simp [encode_elf_header]
    have hl : (60 : Nat) =
        ([0x7f, 0x45, 0x4c, 0x46] ++ List.replicate 36 (0 : Nat) ++
          natLE 8 shoff ++ List.replicate 10 (0 : Nat) ++
          natLE 2 shentsize).length := by
      simp [natLE_length]
    rw [hd, hl, readU16_encode _ _ _ h3]
  have hmod : (shoff + shnum * shentsize) % 2 ^ 64 =
      shoff + shnum * shentsize := by
    apply Nat.mod_eq_of_lt
    have : HIP_REMOTE_MAX_PAYLOAD_SIZE < 2 ^ 64 := by decide
    omega
  have happrox :
      module_approx_size (encode_elf_header shoff shentsize shnum ++ rest) =
        shoff + shnum * shentsize := by
    unfold module_approx_size
    rw [helf]
    simp only [if_true]
    rw [h40, h58, h60, hmod]
  have hcond : ¬ (shoff + shnum * shentsize < 64 ∨
      shoff + shnum * shentsize > HIP_REMOTE_MAX_PAYLOAD_SIZE) := by
    omega
  unfold module_sniff_size
  rw [happrox, if_neg hcond]

/-- Witness for elf_sniff_amended: section headers at offset 100, two
entries of 10 bytes each; the sniffed size is 120. -/
theorem elf_sniff_amended_witness :
    module_sniff_size (encode_elf_header 100 10 2 ++ []) = 120 := by
  have h := elf_sniff_amended 100 10 2 (by decide) (by decide) (by decide)
    (by decide) (by decide) []
  rw [h]

/-! ### Offload-bundle encoding for claim C7 -/

/-- One bundle entry (offset, size, triple_len) as laid out on disk:
three uint64 fields then triple_len bytes of target-triple text. -/
def encode_bundle_entry (e : Nat × Nat × Nat) : List Nat :=
  natLE 8 e.1 ++ natLE 8 e.2.1 ++ natLE 8 e.2.2 ++
  List.replicate e.2.2 0

def encode_entries : List (Nat × Nat × Nat) → List Nat
  | [] => []
  | e :: es => encode_bundle_entry e ++ encode_entries es

/-- A synthetic offload bundle: magic, entry count, entries. -/
def encode_bundle (es : List (Nat × Nat × Nat)) : List Nat :=
  clang_bundle_magic ++ natLE 8 es.length ++ encode_entries es

/-- The maximum of offset + size (64-bit) over a list of entries,
starting from acc. -/
def bundle_max_end (acc : Nat) (es : List (Nat × Nat × Nat)) : Nat :=
  es.foldl (fun a e => max a ((e.1 + e.2.1) % 2 ^ 64)) acc

theorem bundle_scan_encode (es : List (Nat × Nat × Nat)) :
    ∀ (n : Nat) (pre rest : List Nat) (acc : Nat),
      n ≤ es.length →
      (∀ e ∈ es, e.1 < 2 ^ 64 ∧ e.2.1 < 2 ^ 64 ∧ e.2.2 < 2 ^ 64) →
      bundle_scan (pre ++ (encode_entries es ++ rest)) pre.length n acc =
        bundle_max_end acc (es.take n) := by
  induction es with
  | nil =>
    intro n pre rest acc hn _
    have : n = 0 := by simpa using hn
    subst this
    rfl
  | cons e tl ih =>
    intro n pre rest acc hn hwf
    have he := hwf e (List.mem_cons_self e tl)
    cases n with
    | zero => rfl
    | succ m =>
      have h1 : readU64 (pre ++ (encode_entries (e :: tl) ++ rest))
          pre.length = e.1 := by
        have hd : pre ++ (encode_entries (e :: tl) ++ rest) =
            pre ++ (natLE 8 e.1 ++ (natLE 8 e.2.1 ++ natLE 8 e.2.2 ++
              List.replicate e.2.2 0 ++ encode_entries tl ++ rest)) := by
          simp [encode_entries, encode_bundle_entry]
        rw [hd, readU64_encode _ _ _ he.1]
      have h2 : readU64 (pre ++ (encode_entries (e :: tl) ++ rest))
          (pre.length + 8) = e.2.1 := by
        have hd : pre ++ (encode_entries (e :: tl) ++ rest) =
            (pre ++ natLE 8 e.1) ++ (natLE 8 e.2.1 ++ (natLE 8 e.2.2 ++
              List.replicate e.2.2 0 ++ encode_entries tl ++ rest)) := by
          simp [encode_entries, encode_bundle_entry]
        have hl : pre.length + 8 = (pre ++ natLE 8 e.1).length := by
          simp [natLE_length]
        rw [hd, hl, readU64_encode _ _ _ he.2.1]
      have h3 : readU64 (pre ++ (encode_entries (e :: tl) ++ rest))
          (pre.length + 16) = e.2.2 := by
        have hd : pre ++ (encode_entries (e :: tl) ++ rest) =
            (pre ++ natLE 8 e.1 ++ natLE 8 e.2.1) ++ (natLE 8 e.2.2 ++
              (List.replicate e.2.2 0 ++ encode_entries tl ++ rest)) := by
          simp [encode_entries, encode_bundle_entry]
        have hl : pre.length + 16 =
            (pre ++ natLE 8 e.1 ++ natLE 8 e.2.1).length := by
          simp [natLE_length]
        rw [hd, hl, readU64_encode _ _ _ he.2.2]
      show bundle_scan (pre ++ (encode_entries (e :: tl) ++ rest))
          pre.length (m + 1) acc = _
      rw [bundle_scan, h1, h2, h3]
      have hl4 : pre.length + 24 + e.2.2 =
          (pre ++ encode_bundle_entry e).length := by
        simp [encode_bundle_entry, natLE_length]
        omega
      have hd4 : pre ++ (encode_entries (e :: tl) ++ rest) =
          (pre ++ encode_bundle_entry e) ++ (encode_entries tl ++ rest) := by
        simp [encode_entries]
      rw [hl4, hd4, ih m (pre ++ encode_bundle_entry e) rest _
        (by simpa using Nat.succ_le_succ_iff.mp hn)
        (fun x hx => hwf x (List.mem_cons_of_mem e hx))]
      rfl

/-- Claim C7: for a synthetic offload bundle with any entry list, the
sniffer computes the maximum of offset + size over at most the first 16
entries (whatever the declared count), subject to the plausibility
clamp; and any buffer that is neither ELF nor bundle gets the fixed
conservative 16 MiB size. -/
theorem bundle_sniff_spec (es : List (Nat × Nat × Nat))
    (hwf : ∀ e ∈ es, e.1 < 2 ^ 64 ∧ e.2.1 < 2 ^ 64 ∧ e.2.2 < 2 ^ 64)
    (hn : es.length < 2 ^ 64) :
    (module_sniff_size (encode_bundle es) =
      if bundle_max_end 0 (es.take 16) < 64 ∨
          bundle_max_end 0 (es.take 16) > HIP_REMOTE_MAX_PAYLOAD_SIZE then
        16 * 1024 * 1024
      else bundle_max_end 0 (es.take 16)) ∧
    (∀ data, is_elf_magic data = false →
      data.take 24 ≠ clang_bundle_magic →
      module_sniff_size data = 16 * 1024 * 1024) := by
  constructor
  · have helf : is_elf_magic (encode_bundle es) = false := rfl
    have htake : (encode_bundle es).take 24 = clang_bundle_magic := by
      have h24 : (24 : Nat) = clang_bundle_magic.length := rfl
      unfold encode_bundle
      rw [h24, List.append_assoc]
      simp
    have hcount : readU64 (encode_bundle es) 24 = es.length := by
      have h24 : (24 : Nat) = clang_bundle_magic.length := rfl
      unfold encode_bundle
      rw [List.append_assoc, h24, readU64_encode _ _ _ hn]
    have hscan : bundle_scan (encode_bundle es) 32 (min es.length 16) 0 =
        bundle_max_end 0 (es.take 16) := by
      have h32 : (32 : Nat) =
          (clang_bundle_magic ++ natLE 8 es.length).length := by
        simp [natLE_length, clang_bundle_magic]
      have hd : encode_bundle es =
          (clang_bundle_magic ++ natLE 8 es.length) ++
            (encode_entries es ++ []) := by
        simp [encode_bundle]
      have htk : es.take (min es.length 16) = es.take 16 := by
        rw [min_comm, ← List.take_take, List.take_length]
      rw [h32, hd, bundle_scan_encode es (min es.length 16) _ _ 0
        (min_le_left _ _) hwf, htk]
    have happrox : module_approx_size (encode_bundle es) =
        bundle_max_end 0 (es.take 16) := by
      unfold module_approx_size
      rw [helf]
      simp only [Bool.false_eq_true, if_false]
      rw [if_pos htake, hcount, hscan]
    unfold module_sniff_size
    rw [happrox]
  · intro data helf hmagic
    have happrox : module_approx_size data = 16 * 1024 * 1024 := by
      unfold module_approx_size
      rw [helf]
      simp only [Bool.false_eq_true, if_false, if_neg hmagic]
    unfold module_sniff_size
    rw [happrox, if_neg (by norm_num [HIP_REMOTE_MAX_PAYLOAD_SIZE])]

/-- Witness for bundle_sniff_spec: two entries with (offset, size) equal
to (100, 50) and (10, 200); the sniffed size is max(150, 210) = 210,
and an unrecognized buffer falls back to 16 MiB. -/
theorem bundle_sniff_spec_witness :
    module_sniff_size (encode_bundle [(100, 50, 3), (10, 200, 0)]) = 210 ∧
    module_sniff_size [1, 2, 3] = 16 * 1024 * 1024 := by
  have h := bundle_sniff_spec [(100, 50, 3), (10, 200, 0)]
    (by decide) (by decide)
  constructor
  · rw [h.1]
    decide
  · exact h.2 [1, 2, 3] (by decide) (by decide)

/-! ### Worker dispatch loop (hip_worker_main.c, handle_client) -/

/-- The opcodes the worker's switch statement dispatches to a handler
(every case label except the default). -/
def dispatched_opcodes : List Nat :=
  [0x0001, 0x0002,
   0x0100, 0x0101, 0x0102, 0x0104, 0x0103,
   0x0200, 0x0201, 0x0210, 0x0211, 0x0220, 0x0221, 0x0230,
   0x0300, 0x0301, 0x0302, 0x0303, 0x0304,
   0x0400, 0x0401, 0x0402, 0x0403, 0x0404, 0x0406,
   0x0700, 0x0701, 0x0600, 0x0601,
   0x0500, 0x0501, 0x0502, 0x0503, 0x0510, 0x0512]

/-- Embedding of send_response's header construction: init_header for
the echoed opcode and request id, with the response flag set. -/
def send_response_header (op_code request_id payload_size : Nat) :
    HipRemoteHeader :=
  let h := hip_remote_init_header op_code request_id payload_size
  { h with flags := h.flags ||| HIP_REMOTE_FLAG_RESPONSE }

/-- What one iteration of handle_client does after reading and
validating a request header: dispatch to a handler, close the
connection (shutdown opcode), or send the default not-supported
response. -/
inductive WorkerAction where
  | handled (op_code : Nat)
  | closeAfterShutdown
  | unknownOp (resp_header : HipRemoteHeader) (error_code : Int)
  deriving Repr, DecidableEq

/-- Embedding of the dispatch switch of handle_client: SHUTDOWN runs its
handler and then leaves the loop; every other listed opcode runs its
handler and the loop continues; anything else hits the default case,
which sends a 4-byte simple response (the echoed opcode and request id
with error code hipErrorNotSupported) and continues the loop. -/
def handle_client_dispatch (op_code request_id : Nat) : WorkerAction :=
  if op_code = HIP_OP_SHUTDOWN then .closeAfterShutdown
  else if op_code ∈ dispatched_opcodes then .handled op_code
  else .unknownOp (send_response_header op_code request_id 4)
    hipErrorNotSupported

/-- Whether the connection loop goes back to awaiting the next header
after this action. -/
def worker_action_continues : WorkerAction → Bool
  | .closeAfterShutdown => false
  | _ => true

/-- Claim C8: a request whose opcode is not in the worker's dispatch
table receives the default response - a response-flagged header echoing
the request's opcode and request id with a 4-byte payload carrying
hipErrorNotSupported - and the per-connection loop continues to await
the next header instead of closing. -/
theorem unknown_opcode_spec (op_code request_id : Nat)
    (hop : op_code ∉ dispatched_opcodes)
    (h16 : op_code < 2 ^ 16) (h32 : request_id < 2 ^ 32) :
    handle_client_dispatch op_code request_id =
      .unknownOp (send_response_header op_code request_id 4)
        hipErrorNotSupported ∧
    worker_action_continues (handle_client_dispatch op_code request_id)
      = true ∧
    (send_response_header op_code request_id 4).op_code = op_code ∧
    (send_response_header op_code request_id 4).request_id = request_id ∧
    (send_response_header op_code request_id 4).flags =
      HIP_REMOTE_FLAG_RESPONSE ∧
    (send_response_header op_code request_id 4).payload_length = 4 := by
  have hsh : op_code ≠ HIP_OP_SHUTDOWN := by
    intro h
    exact hop (h ▸ (by decide))
  have hda : handle_client_dispatch op_code request_id =
      .unknownOp (send_response_header op_code request_id 4)
        hipErrorNotSupported := by
    unfold handle_client_dispatch
    rw [if_neg hsh, if_neg hop]
  refine ⟨hda, by rw [hda]; rfl, ?_, ?_, ?_, ?_⟩
  · show op_code % 2 ^ 16 = op_code
    exact Nat.mod_eq_of_lt h16
  · show request_id % 2 ^ 32 = request_id
    exact Nat.mod_eq_of_lt h32
  · show (0 : Nat) ||| HIP_REMOTE_FLAG_RESPONSE = HIP_REMOTE_FLAG_RESPONSE
    decide
  · rfl

/-- Witness for unknown_opcode_spec at the unassigned opcode 0x0999. -/
theorem unknown_opcode_spec_witness :
    handle_client_dispatch 0x0999 5 =
      .unknownOp (send_response_header 0x0999 5 4) hipErrorNotSupported ∧
    worker_action_continues (handle_client_dispatch 0x0999 5) = true := by
  have h := unknown_opcode_spec 0x0999 5 (by decide) (by decide) (by decide)
  exact ⟨h.1, h.2.1⟩

end HipRemote
